import Mathlib

/-!
Shallow embedding of `src/books.py` (open-library-project): a four-stage
batch ETL pipeline (fetch, clean, persist, visualize).  Python dict records
become structures with `Option` fields; Python truthiness is made explicit;
pandas tables become lists of rows; fallible I/O is modelled by an explicit
`Except String Unit` oracle argument standing for whether the underlying
library call raises.
-/

/-- A Python scalar value as it can appear in the `ratings_sortable` field:
either a string or a number (rationals stand in for Python numbers; only
zero-testing matters for truthiness). -/
inductive PyVal where
  | str : String → PyVal
  | num : Rat → PyVal
deriving DecidableEq

/-- Python truthiness of a scalar: the empty string and the number 0 are
falsy, everything else is truthy. -/
def PyVal.truthy : PyVal → Bool
  | .str s => !(s == "")
  | .num q => !(q == 0)

/-- Python truthiness of `book.get("title")`: `None` and `""` are falsy. -/
def pyOptStrTruthy : Option String → Bool
  | none => false
  | some s => !(s == "")

/-- Python truthiness of `book.get("first_publish_year")`: `None` and `0`
are falsy. -/
def pyOptIntTruthy : Option Int → Bool
  | none => false
  | some n => !(n == 0)

/-- A raw record returned by the Open Library search API
(`src/books.py`, fields requested at line 17): every field may be absent. -/
structure RawBook where
  title : Option String
  author_name : Option (List String)
  first_publish_year : Option Int
  ratings_sortable : Option PyVal
deriving DecidableEq

/-- Embedding of Python's `", ".join(names)` (line 94): concatenate the
names in input order with the separator between consecutive elements. -/
def pyJoinComma : List String → String
  | [] => ""
  | [s] => s
  | s :: rest => s ++ ", " ++ pyJoinComma rest

/-- `author = ", ".join(book.get("author_name", []))` (line 94). -/
def authorOf (b : RawBook) : String :=
  pyJoinComma (b.author_name.getD [])

/-- `rating = book.get("ratings_sortable", "")` (line 96). -/
def ratingOf (b : RawBook) : PyVal :=
  b.ratings_sortable.getD (PyVal.str "")

/-- The filter at line 99 of `src/books.py`:
`if title and author and first_publish_year and rating`. -/
def keepBook (b : RawBook) : Bool :=
  pyOptStrTruthy b.title && !(authorOf b == "") &&
    pyOptIntTruthy b.first_publish_year && (ratingOf b).truthy

/-- One row of the cleaned pandas DataFrame (the dict built at lines
100-107).  Cells are `Option`s so that pandas null-handling
(`dropna`) is expressible. -/
structure DFRow where
  title : Option String
  author : Option String
  first_publish_year : Option Int
  rating : Option PyVal
deriving DecidableEq

/-- The dict appended at lines 100-107 for a kept record. -/
def mkRow (b : RawBook) : DFRow :=
  { title := b.title
    author := some (authorOf b)
    first_publish_year := b.first_publish_year
    rating := some (ratingOf b) }

/-- State of a `BookCleaner` instance: the constructor argument and the
`cleaned_data` attribute (`None` until set). -/
structure BookCleaner where
  raw_books : List RawBook
  cleaned_data : Option (List DFRow)
deriving DecidableEq

/-- `BookCleaner.__init__` (lines 62-75): stores the raw books and sets
`cleaned_data = None`. -/
def BookCleaner.init (raw : List RawBook) : BookCleaner :=
  { raw_books := raw, cleaned_data := none }

/-- The two files `process_data` writes (`books.csv`, `books.json`):
`none` means the file has never been written. -/
structure FileSystem where
  csv : Option (List DFRow)
  json : Option (List DFRow)
deriving DecidableEq

/-- The accumulation of the `books` list over the loop at lines 92-107:
append the row when the filter at line 99 holds. -/
def booksAux (books : List DFRow) (raw : List RawBook) : List DFRow :=
  raw.foldl (fun bs b => if keepBook b then bs ++ [mkRow b] else bs) books

/-- The final `books` list of `process_data`. -/
def processBooks (raw : List RawBook) : List DFRow :=
  booksAux [] raw

/-- One iteration of the loop body of `process_data` (lines 92-113).  Note
that lines 109-113 are indented inside the `for` loop in the source: the
assignment to `cleaned_data` and both file writes happen on every
iteration, not once after the loop. -/
def processStep (acc : List DFRow × BookCleaner × FileSystem) (b : RawBook) :
    List DFRow × BookCleaner × FileSystem :=
  let books := if keepBook b then acc.1 ++ [mkRow b] else acc.1
  (books,
   { acc.2.1 with cleaned_data := some books },
   { csv := some books, json := some books })

/-- `BookCleaner.process_data` (lines 77-113), as a transformer of the
cleaner state and the filesystem. -/
def process_data (c : BookCleaner) (fs : FileSystem) : BookCleaner × FileSystem :=
  let r := c.raw_books.foldl processStep ([], c, fs)
  (r.2.1, r.2.2)

/-- Python exceptions that the cleaner can raise. -/
inductive PyError where
  | valueError : String → PyError
deriving DecidableEq

/-- `dropna` (line 145): drop every row with any null cell. -/
def rowHasNull (r : DFRow) : Bool :=
  r.title.isNone || r.author.isNone || r.first_publish_year.isNone || r.rating.isNone

/-- `self.cleaned_data.dropna(inplace=True)` on a list-of-rows table. -/
def dropna (t : List DFRow) : List DFRow :=
  t.filter (fun r => !rowHasNull r)

/-- pandas `drop_duplicates` with the default `keep="first"`: keep the
first occurrence of each row, dropping later exact duplicates.  `seen`
accumulates the rows already emitted. -/
def dedupFirst {α : Type} [DecidableEq α] : List α → List α → List α
  | _, [] => []
  | seen, r :: rs =>
    if r ∈ seen then dedupFirst seen rs else r :: dedupFirst (r :: seen) rs

/-- `self.cleaned_data.drop_duplicates(inplace=True)` (line 148). -/
def drop_duplicates (t : List DFRow) : List DFRow :=
  dedupFirst [] t

/-- `BookCleaner.clean_data` (lines 115-159): raises `ValueError` when
`cleaned_data` is `None` (lines 131-134), otherwise drops null rows, then
drops duplicate rows, updates `cleaned_data` in place, and returns it. -/
def clean_data (c : BookCleaner) : Except PyError (BookCleaner × List DFRow) :=
  match c.cleaned_data with
  | none =>
    Except.error (PyError.valueError
      "Data has not been processed yet. Call process_data() before cleaning data.")
  | some t =>
    let cleaned := drop_duplicates (dropna t)
    Except.ok ({ c with cleaned_data := some cleaned }, cleaned)

/-- State of the relational store: the `books` table, `none` when the
table does not exist. -/
structure DBState where
  books : Option (List DFRow)
deriving DecidableEq

/-- `DataFrame.to_sql("books", engine, if_exists="replace", index=False)`
(lines 197-199): on success the stored table is fully replaced by the given
rows; the `io` oracle says whether the underlying I/O raises. -/
def to_sql (table : List DFRow) (db : DBState) (io : Except String Unit) :
    Except String DBState :=
  match io with
  | Except.error e => Except.error e
  | Except.ok _ => Except.ok { books := some table }

/-- `BookDatabase.save_data` (lines 179-202): wraps `to_sql` in
`try/except`, printing a success or error message; any exception is caught
and the method returns normally either way. -/
def save_data (cleaned : List DFRow) (db : DBState) (io : Except String Unit) :
    DBState × List String :=
  match to_sql cleaned db io with
  | Except.ok db2 =>
    (db2, ["Saving data...", "Data saved successfully! to Azure SQL DB."])
  | Except.error e =>
    (db, ["Saving data...", "Error saving data: " ++ e])

/-- `pd.read_sql("SELECT * FROM books", engine)` (lines 223-224): returns
all rows of the stored table; raises when the I/O fails or the table is
absent. -/
def read_sql (db : DBState) (io : Except String Unit) :
    Except String (List DFRow) :=
  match io with
  | Except.error e => Except.error e
  | Except.ok _ =>
    match db.books with
    | some t => Except.ok t
    | none => Except.error "no such table: books"

/-- `BookDatabase.fetch_data` (lines 204-230): wraps `read_sql` in
`try/except`; on success returns the DataFrame, on any exception prints an
error message and returns `None` (falls off the end of the function). -/
def fetch_data (db : DBState) (io : Except String Unit) :
    Option (List DFRow) × List String :=
  match read_sql db io with
  | Except.ok df =>
    (some df, ["Data fetched successfully! from Azure SQL DB."])
  | Except.error e =>
    (none, ["Error fetching data: " ++ e])

/-- An HTTP response as `fetch_books` observes it: the status code and the
relevant parsed JSON fields. -/
structure HttpResponse where
  status_code : Nat
  numFound : Nat
  docs : List RawBook

/-- Semantics of `requests.Response.raise_for_status` (called at line 58):
it raises `requests.exceptions.HTTPError` carrying the status code exactly
when `400 <= status_code < 600`, and returns normally otherwise. -/
def raise_for_status (r : HttpResponse) : Except Nat Unit :=
  if 400 ≤ r.status_code ∧ r.status_code < 600 then
    Except.error r.status_code
  else
    Except.ok ()

/-- `BookFetcher.fetch_books` (lines 36-58) as a function of the response:
on status 200 it returns `data["docs"]`; otherwise it calls
`raise_for_status`, and if that returns (a non-error non-200 status) the
function falls off its end and returns `None`. -/
def fetch_books (r : HttpResponse) : Except Nat (Option (List RawBook)) :=
  if r.status_code = 200 then
    Except.ok (some r.docs)
  else
    match raise_for_status r with
    | Except.error c => Except.error c
    | Except.ok _ => Except.ok none

/-- The methods `main` (lines 289-318) can call on the pipeline objects. -/
inductive Stage where
  | fetchBooks
  | processData
  | cleanData
  | saveData
  | fetchData
  | visualizeData
deriving DecidableEq

/-- The sequence of pipeline-stage calls in the body of `main`
(lines 298-318).  The `db.save_data()` call at line 311 is commented out
in the source, so no `saveData` stage occurs. -/
def mainCallSequence : List Stage :=
  [Stage.fetchBooks, Stage.processData, Stage.cleanData,
   Stage.fetchData, Stage.visualizeData]

/-- The continuation of a comma join after the first element: each further
name is preceded by the separator. -/
def pyJoinCommaTail : List String → String
  | [] => ""
  | a :: as => ", " ++ a ++ pyJoinCommaTail as

/-- A concrete raw record with all four fields present and truthy. -/
def bookKept : RawBook :=
  { title := some "A", author_name := some ["X"],
    first_publish_year := some 2000, ratings_sortable := some (PyVal.num 5) }

/-- A concrete raw record whose `ratings_sortable` field is absent. -/
def bookNoRating : RawBook :=
  { title := some "B", author_name := some ["Y"],
    first_publish_year := some 1999, ratings_sortable := none }

/-- A concrete raw record with two author names. -/
def bookTwoAuthors : RawBook :=
  { title := some "C", author_name := some ["X", "Y"],
    first_publish_year := some 1980, ratings_sortable := some (PyVal.num 3) }

/-- A concrete raw record with no `author_name` field. -/
def bookNoAuthors : RawBook :=
  { title := some "D", author_name := none,
    first_publish_year := some 1970, ratings_sortable := some (PyVal.num 2) }

/-- A filesystem on which neither output file has been written. -/
def fs0 : FileSystem := { csv := none, json := none }

/-- A concrete cleaned row with no null cell. -/
def rowA : DFRow :=
  { title := some "A", author := some "X",
    first_publish_year := some 2000, rating := some (PyVal.num 5) }

/-- A cleaner state whose processed table holds the same row twice. -/
def cleanerDup : BookCleaner :=
  { raw_books := [], cleaned_data := some [rowA, rowA] }

/-! ## Helper lemmas -/

theorem booksAux_cons (bs : List DFRow) (b : RawBook) (rest : List RawBook) :
    booksAux bs (b :: rest) =
      booksAux (if keepBook b then bs ++ [mkRow b] else bs) rest := rfl

theorem booksAux_eq (raw : List RawBook) :
    ∀ bs : List DFRow, booksAux bs raw = bs ++ (raw.filter keepBook).map mkRow := by
  induction raw with
  | nil => intro bs; simp [booksAux]
  | cons b rest ih =>
    intro bs
    rw [booksAux_cons, ih]
    by_cases h : keepBook b
    · simp [h, List.filter_cons]
    · simp [h, List.filter_cons]

theorem foldl_processStep_fst (raw : List RawBook) :
    ∀ (bs : List DFRow) (c : BookCleaner) (fs : FileSystem),
      (List.foldl processStep (bs, c, fs) raw).1 = booksAux bs raw := by
  induction raw with
  | nil => intro bs c fs; rfl
  | cons b rest ih =>
    intro bs c fs
    rw [List.foldl_cons, booksAux_cons]
    simp only [processStep]
    exact ih _ _ _

theorem foldl_processStep_state (raw : List RawBook) :
    ∀ (bs : List DFRow) (c : BookCleaner) (fs : FileSystem), raw ≠ [] →
      (List.foldl processStep (bs, c, fs) raw).2.1 =
          { raw_books := c.raw_books, cleaned_data := some (booksAux bs raw) } ∧
        (List.foldl processStep (bs, c, fs) raw).2.2 =
          { csv := some (booksAux bs raw), json := some (booksAux bs raw) } := by
  induction raw with
  | nil => intro bs c fs h; exact absurd rfl h
  | cons b rest ih =>
    intro bs c fs _
    by_cases hr : rest = []
    · subst hr
      constructor
      · simp [processStep, booksAux]
      · simp [processStep, booksAux]
    · rw [List.foldl_cons, booksAux_cons]
      simp only [processStep]
      have h2 := ih (if keepBook b then bs ++ [mkRow b] else bs)
        { c with cleaned_data := some (if keepBook b then bs ++ [mkRow b] else bs) }
        { csv := some (if keepBook b then bs ++ [mkRow b] else bs),
          json := some (if keepBook b then bs ++ [mkRow b] else bs) } hr
      simpa using h2

theorem process_data_of_nil (c : BookCleaner) (fs : FileSystem)
    (h : c.raw_books = []) : process_data c fs = (c, fs) := by
  simp [process_data, h]

theorem process_data_of_ne_nil (c : BookCleaner) (fs : FileSystem)
    (h : c.raw_books ≠ []) :
    (process_data c fs).1 =
        { raw_books := c.raw_books,
          cleaned_data := some (processBooks c.raw_books) } ∧
      (process_data c fs).2 =
        { csv := some (processBooks c.raw_books),
          json := some (processBooks c.raw_books) } := by
  have h2 := foldl_processStep_state c.raw_books [] c fs h
  simpa [process_data, processBooks] using h2

theorem mem_dedupFirst {α : Type} [DecidableEq α] (l : List α) :
    ∀ (seen : List α) (a : α), a ∈ dedupFirst seen l ↔ a ∈ l ∧ a ∉ seen := by
  induction l with
  | nil => intro seen a; simp [dedupFirst]
  | cons r rs ih =>
    intro seen a
    by_cases h : r ∈ seen
    · rw [dedupFirst, if_pos h, ih]
      constructor
      · rintro ⟨ha, hn⟩; exact ⟨List.mem_cons_of_mem r ha, hn⟩
      · rintro ⟨ha, hn⟩
        rcases List.mem_cons.1 ha with h1 | h1
        · subst h1; exact absurd h hn
        · exact ⟨h1, hn⟩
    · rw [dedupFirst, if_neg h]
      constructor
      · intro ha
        rcases List.mem_cons.1 ha with h1 | h1
        · subst h1; exact ⟨List.mem_cons_self a rs, h⟩
        · rcases (ih (r :: seen) a).1 h1 with ⟨h2, h3⟩
          refine ⟨List.mem_cons_of_mem r h2, fun hc => h3 (List.mem_cons_of_mem r hc)⟩
      · rintro ⟨ha, hn⟩
        by_cases he : a = r
        · subst he; exact List.mem_cons_self a _
        · rcases List.mem_cons.1 ha with h1 | h1
          · exact absurd h1 he
          · refine List.mem_cons_of_mem r ((ih (r :: seen) a).2 ⟨h1, ?_⟩)
            intro hc
            rcases List.mem_cons.1 hc with h2 | h2
            · exact he h2
            · exact hn h2

theorem nodup_dedupFirst {α : Type} [DecidableEq α] (l : List α) :
    ∀ seen : List α, (dedupFirst seen l).Nodup := by
  induction l with
  | nil => intro seen; simp [dedupFirst]
  | cons r rs ih =>
    intro seen
    by_cases h : r ∈ seen
    · rw [dedupFirst, if_pos h]; exact ih seen
    · rw [dedupFirst, if_neg h, List.nodup_cons]
      refine ⟨fun hc => ?_, ih (r :: seen)⟩
      exact ((mem_dedupFirst rs (r :: seen) r).1 hc).2 (List.mem_cons_self r seen)

theorem dedupFirst_of_nodup {α : Type} [DecidableEq α] (l : List α) :
    ∀ seen : List α, l.Nodup → (∀ a ∈ l, a ∉ seen) → dedupFirst seen l = l := by
  induction l with
  | nil => intro seen _ _; rfl
  | cons r rs ih =>
    intro seen hnd hs
    have hr : r ∉ seen := hs r (List.mem_cons_self r rs)
    rw [List.nodup_cons] at hnd
    rw [dedupFirst, if_neg hr]
    congr 1
    refine ih (r :: seen) hnd.2 ?_
    intro a ha hc
    rcases List.mem_cons.1 hc with h1 | h1
    · exact hnd.1 (h1 ▸ ha)
    · exact hs a (List.mem_cons_of_mem r ha) h1

theorem mem_drop_duplicates (t : List DFRow) (r : DFRow) :
    r ∈ drop_duplicates t ↔ r ∈ t := by
  rw [drop_duplicates, mem_dedupFirst]
  simp

theorem nodup_drop_duplicates (t : List DFRow) : (drop_duplicates t).Nodup :=
  nodup_dedupFirst t []

theorem drop_duplicates_of_nodup (t : List DFRow) (h : t.Nodup) :
    drop_duplicates t = t :=
  dedupFirst_of_nodup t [] h (by simp)

theorem mem_dropna (t : List DFRow) (r : DFRow) :
    r ∈ dropna t ↔ r ∈ t ∧ rowHasNull r = false := by
  simp [dropna]

theorem dropna_of_no_null (t : List DFRow)
    (h : ∀ r ∈ t, rowHasNull r = false) : dropna t = t := by
  rw [dropna, List.filter_eq_self]
  intro a ha
  simp [h a ha]

theorem pyJoinComma_cons (as : List String) :
    ∀ a : String, pyJoinComma (a :: as) = a ++ pyJoinCommaTail as := by
  induction as with
  | nil => intro a; simp [pyJoinComma, pyJoinCommaTail]
  | cons b bs ih =>
    intro a
    rw [show pyJoinComma (a :: b :: bs) = a ++ ", " ++ pyJoinComma (b :: bs) from rfl,
      ih b, pyJoinCommaTail]
    simp [String.append_assoc]

theorem intercalate_go_eq (as : List String) :
    ∀ acc : String, String.intercalate.go acc ", " as = acc ++ pyJoinCommaTail as := by
  induction as with
  | nil => intro acc; simp [String.intercalate.go, pyJoinCommaTail]
  | cons a rest ih =>
    intro acc
    rw [String.intercalate.go, ih, pyJoinCommaTail]
    simp [String.append_assoc]

theorem pyJoinComma_eq_intercalate (l : List String) :
    pyJoinComma l = String.intercalate ", " l := by
  cases l with
  | nil => rfl
  | cons a as => rw [String.intercalate, intercalate_go_eq, pyJoinComma_cons]

/-! ## Claim theorems -/

/-- Claim C1: a raw record contributes a row to the cleaned table built by
`process_data` iff its title, its comma-joined author string, its
first_publish_year and its rating are all truthy (after processing a
nonempty input, `cleaned_data` is exactly the rows of the records passing
that filter), and a record whose `ratings_sortable` is absent, 0, or the
empty string is excluded. -/
theorem claim1_process_keep_iff (raw : List RawBook) :
    (∀ (c : BookCleaner) (fs : FileSystem), c.raw_books = raw → raw ≠ [] →
      (process_data c fs).1.cleaned_data =
        some ((raw.filter keepBook).map mkRow)) ∧
    (∀ b : RawBook, keepBook b =
      (pyOptStrTruthy b.title && !(authorOf b == "") &&
        pyOptIntTruthy b.first_publish_year && (ratingOf b).truthy)) ∧
    (∀ b : RawBook,
      b.ratings_sortable = none ∨ b.ratings_sortable = some (PyVal.num 0) ∨
        b.ratings_sortable = some (PyVal.str "") →
      keepBook b = false) := by
  refine ⟨?_, fun b => rfl, ?_⟩
  · intro c fs hc hne
    have h := (process_data_of_ne_nil c fs (by rw [hc]; exact hne)).1
    rw [h]
    simp [processBooks, hc, booksAux_eq]
  · rintro b (h | h | h) <;>
      simp [keepBook, ratingOf, h, PyVal.truthy]

theorem claim1_witness :
    (process_data (BookCleaner.init [bookKept, bookNoRating]) fs0).1.cleaned_data =
        some [mkRow bookKept] ∧
      keepBook bookNoRating = false := by
  constructor
  · have h := (claim1_process_keep_iff [bookKept, bookNoRating]).1
      (BookCleaner.init [bookKept, bookNoRating]) fs0 rfl (by simp)
    rw [h]
    rfl
  · exact (claim1_process_keep_iff []).2.2 bookNoRating (Or.inl rfl)

/-- Claim C2 (evaluation of the code at its single entry point): `main` as
written calls fetch_books, process_data, clean_data, fetch_data and
visualize_data in order but never calls save_data — the `db.save_data()`
call at line 311 of `src/books.py` is commented out, although `main`'s own
docstring says the cleaned data is saved to the database before fetching.
So `Store.fetch` runs without `Store.save` ever having run. -/
theorem claim2_main_skips_save :
    Stage.saveData ∉ mainCallSequence ∧ Stage.fetchData ∈ mainCallSequence := by
  decide

/-- Claim C3 counterexample: the claim says every non-200 response makes
`fetch_books` raise an HTTP error carrying the status code, but at status
204 the function raises nothing and returns `None` (``raise_for_status``
only raises for 4xx/5xx statuses). -/
theorem claim3_counterexample :
    ¬ (∀ r : HttpResponse, r.status_code ≠ 200 →
        fetch_books r = Except.error r.status_code) := by
  intro hall
  have h := hall { status_code := 204, numFound := 0, docs := [] } (by decide)
  have h2 : fetch_books { status_code := 204, numFound := 0, docs := [] } =
      Except.ok none := rfl
  rw [h2] at h
  exact Except.noConfusion h

/-- Claim C3 amended: on status 200 `fetch_books` returns the parsed
`docs` array; on a 4xx or 5xx status it raises an HTTP error carrying the
status code (propagated, no retry); on any other non-200 status
`raise_for_status` returns normally and `fetch_books` returns `None`. -/
theorem claim3_fetch_books_statuses (r : HttpResponse) :
    (r.status_code = 200 → fetch_books r = Except.ok (some r.docs)) ∧
    (400 ≤ r.status_code → r.status_code < 600 →
      fetch_books r = Except.error r.status_code) ∧
    (r.status_code ≠ 200 → ¬(400 ≤ r.status_code ∧ r.status_code < 600) →
      fetch_books r = Except.ok none) := by
  refine ⟨?_, ?_, ?_⟩
  · intro h
    simp [fetch_books, h]
  · intro h4 h6
    have hne : ¬ r.status_code = 200 := by omega
    simp [fetch_books, hne, raise_for_status, h4, h6]
  · intro hne hnot
    simp [fetch_books, hne, raise_for_status, hnot]

theorem claim3_fetch_books_statuses_witness :
    fetch_books { status_code := 200, numFound := 0, docs := [] } =
        Except.ok (some []) ∧
      fetch_books { status_code := 404, numFound := 0, docs := [] } =
        Except.error 404 ∧
      fetch_books { status_code := 204, numFound := 0, docs := [] } =
        Except.ok none :=
  ⟨(claim3_fetch_books_statuses _).1 rfl,
   (claim3_fetch_books_statuses _).2.1 (by decide) (by decide),
   (claim3_fetch_books_statuses _).2.2 (by decide) (by decide)⟩

/-- Claim C4: when the underlying I/O raises, `save_data` catches the
exception, reports it, and returns normally with the store unchanged, and
`fetch_data` catches it, reports it, and returns no result instead of
propagating. -/
theorem claim4_persistence_errors_swallowed (cleaned : List DFRow)
    (db : DBState) (e : String) :
    save_data cleaned db (Except.error e) =
        (db, ["Saving data...", "Error saving data: " ++ e]) ∧
      fetch_data db (Except.error e) =
        (none, ["Error fetching data: " ++ e]) :=
  ⟨rfl, rfl⟩

/-- Claim C5: when `save_data` succeeds, a subsequent successful
`fetch_data` returns exactly the saved table, hence a table with the same
set of rows. -/
theorem claim5_save_fetch_roundtrip (cleaned : List DFRow) (db : DBState) :
    (fetch_data (save_data cleaned db (Except.ok ())).1 (Except.ok ())).1 =
        some cleaned ∧
      (∀ r : DFRow,
        r ∈ ((fetch_data (save_data cleaned db (Except.ok ())).1
            (Except.ok ())).1.getD []) ↔ r ∈ cleaned) :=
  ⟨rfl, fun _ => Iff.rfl⟩

/-- Claim C6: every table returned by `clean_data` has all four fields
non-null in every row and contains no two exactly equal rows. -/
theorem claim6_clean_invariants (c c2 : BookCleaner) (t : List DFRow)
    (h : clean_data c = Except.ok (c2, t)) :
    (∀ r ∈ t, rowHasNull r = false) ∧ t.Nodup := by
  cases hc : c.cleaned_data with
  | none => simp [clean_data, hc] at h
  | some t0 =>
    simp only [clean_data, hc, Except.ok.injEq, Prod.mk.injEq] at h
    obtain ⟨h1, h2⟩ := h
    subst h2
    constructor
    · intro r hr
      exact ((mem_dropna t0 r).1 ((mem_drop_duplicates _ r).1 hr)).2
    · exact nodup_drop_duplicates _

theorem claim6_witness :
    (∀ r ∈ [rowA], rowHasNull r = false) ∧ ([rowA] : List DFRow).Nodup :=
  claim6_clean_invariants cleanerDup
    { raw_books := [], cleaned_data := some [rowA] } [rowA] rfl

/-- Claim C7: `clean_data` is idempotent — when a call returns a table,
calling it again on the resulting cleaner state returns the same state and
the same table (no nulls or duplicates remain to remove). -/
theorem claim7_clean_idempotent (c c2 : BookCleaner) (t : List DFRow)
    (h : clean_data c = Except.ok (c2, t)) :
    clean_data c2 = Except.ok (c2, t) := by
  cases hc : c.cleaned_data with
  | none => simp [clean_data, hc] at h
  | some t0 =>
    simp only [clean_data, hc, Except.ok.injEq, Prod.mk.injEq] at h
    obtain ⟨h1, h2⟩ := h
    subst h2
    subst h1
    have hnn : ∀ r ∈ drop_duplicates (dropna t0), rowHasNull r = false := by
      intro r hr
      exact ((mem_dropna t0 r).1 ((mem_drop_duplicates _ r).1 hr)).2
    simp only [clean_data]
    rw [dropna_of_no_null _ hnn,
      drop_duplicates_of_nodup _ (nodup_drop_duplicates _)]

theorem claim7_witness :
    clean_data { raw_books := [], cleaned_data := some [rowA] } =
      Except.ok ({ raw_books := [], cleaned_data := some [rowA] }, [rowA]) :=
  claim7_clean_idempotent cleanerDup
    { raw_books := [], cleaned_data := some [rowA] } [rowA] rfl

/-- Claim C8: calling `clean_data` on a freshly constructed cleaner, before
`process_data`, raises the "not processed" ValueError rather than returning
an empty or missing result. -/
theorem claim8_clean_before_process (raw : List RawBook) :
    clean_data (BookCleaner.init raw) =
      Except.error (PyError.valueError
        "Data has not been processed yet. Call process_data() before cleaning data.") :=
  rfl

/-- Claim C9: the author field is the `", "`-join of the author names in
their original input order, and the empty string when the record has no
author names (field absent or empty list). -/
theorem claim9_author_join (b : RawBook) :
    (∀ names : List String, b.author_name = some names →
      authorOf b = String.intercalate ", " names) ∧
    (b.author_name = none → authorOf b = "") ∧
    (b.author_name = some [] → authorOf b = "") := by
  refine ⟨?_, ?_, ?_⟩
  · intro names h
    simp only [authorOf, h, Option.getD_some]
    exact pyJoinComma_eq_intercalate names
  · intro h
    simp only [authorOf, h, Option.getD_none]
    rfl
  · intro h
    simp only [authorOf, h, Option.getD_some]
    rfl

theorem claim9_witness :
    authorOf bookTwoAuthors = String.intercalate ", " ["X", "Y"] ∧
      authorOf bookNoAuthors = "" :=
  ⟨(claim9_author_join bookTwoAuthors).1 ["X", "Y"] rfl,
   (claim9_author_join bookNoAuthors).2.1 rfl⟩

/-- Claim C10: calling `process_data` on an empty raw list leaves
`cleaned_data` unset and writes neither output file (the assignment and
the file writes sit inside the loop, which never runs), so a following
`clean_data` still raises the "not processed" ValueError even though
`process_data` was called. -/
theorem claim10_empty_process_leaves_unset (fs : FileSystem) :
    process_data (BookCleaner.init []) fs = (BookCleaner.init [], fs) ∧
      clean_data (process_data (BookCleaner.init []) fs).1 =
        Except.error (PyError.valueError
          "Data has not been processed yet. Call process_data() before cleaning data.") :=
  ⟨rfl, rfl⟩
